import Mathlib

/-
  Verification of invenio-cli (src/invenio_cli/cli.py) against its
  natural-language specification.

  The whole command-line tool is a thin dispatch layer: it reads a small
  INI-style config file (.invenio), branches on flags, and invokes external
  processes.  We embed it as pure Lean functions.  Every run of a command
  handler is summarised by a RunResult: the messages printed to stdout, the
  messages logged at error level, the ordered list of external calls made,
  and the final outcome (normal return, process exit with a code, or an
  uncaught Python AttributeError).

  External collaborators (cookiecutter, docker SDK, docker-compose wrappers,
  subprocess) are modelled as opaque call events; their exit codes are
  supplied by an environment function (ExtCall to Int), mirroring the value
  returned by subprocess.call, which the source discards.
-/

namespace InvenioCLI

/-- Parsed contents of an INI file, as ConfigParser exposes it: a list of
sections, each a list of key/value entries. -/
abbrev Ini := List (String × List (String × String))

/-- Contents of the .invenio file: none when the file is absent, otherwise
the parsed sections. -/
abbrev FileSystem := Option Ini

/-- Lookup config section key, as the Python expression config sec key
chained indexing does (None here standing for the KeyError path). -/
def iniGet (ini : Ini) (sec key : String) : Option String :=
  match ini.lookup sec with
  | some entries => entries.lookup key
  | none => none

/-- The section names, as ConfigParser.sections returns them. -/
def iniSections (ini : Ini) : List String := ini.map Prod.fst

/-- Replace or append a section, as assignment into a ConfigParser does. -/
def iniSetSection (ini : Ini) (sec : String) (entries : List (String × String)) : Ini :=
  if (ini.lookup sec).isSome then
    ini.map fun p => if p.fst = sec then (sec, entries) else p
  else
    ini ++ [(sec, entries)]

/-- Rendering of an optional string inside a Python format string:
None prints as the four characters None. -/
def pyStr : Option String → String
  | none => "None"
  | some s => s

/-- One external call made by the tool.  Each constructor records the
arguments that flow into the call site in cli.py. -/
inductive ExtCall where
  | cookiecutterCall (flavour : String)
  | subprocessCall (args : List String) (cwd : Option String)
  | dockerBuildImage (path : Option String) (dockerfile : String) (tag : String)
  | composeCreateContainers (dev : Bool) (cwd : Option String)
  | composeStartContainers (dev : Bool) (cwd : Option String) (bg : Bool)
  | composeStopContainers (cwd : Option String)
  | composeDestroyContainers (dev : Bool) (cwd : Option String)
  deriving DecidableEq

/-- The working directory an external call runs in (the cwd keyword for
subprocess and compose calls, the build path for docker image builds). -/
def ExtCall.cwdOf : ExtCall → Option String
  | ExtCall.cookiecutterCall _ => none
  | ExtCall.subprocessCall _ cwd => cwd
  | ExtCall.dockerBuildImage path _ _ => path
  | ExtCall.composeCreateContainers _ cwd => cwd
  | ExtCall.composeStartContainers _ cwd _ => cwd
  | ExtCall.composeStopContainers cwd => cwd
  | ExtCall.composeDestroyContainers _ cwd => cwd

/-- Final outcome of one command invocation.  The code in cli.py only ever
produces the first three.  The last two constructors belong to the error
taxonomy of the specification (section 7) and are needed to state the spec
claims; no embedded function returns them. -/
inductive Outcome where
  | normal
  | exited (code : Nat)
  | attributeError (attr : String)
  | externalCommandFailed (step : ExtCall) (exitCode : Int)
  | invalidModeCombination
  deriving DecidableEq

/-- Observable result of running one command handler. -/
structure RunResult where
  prints : List String
  logs : List String
  calls : List ExtCall
  outcome : Outcome
  deriving DecidableEq

/-- The InvenioCli object: exactly the attributes that
InvenioCli.__init__ assigns (cli.py lines 41 to 69): cwd, config, flavour. -/
structure InvenioCli where
  cwd : Option String
  config : Ini
  flavour : String
  deriving DecidableEq

/-- The Python condition flavour and flavour != config_flavour
(cli.py line 50): the supplied value is truthy and differs. -/
def flavourConflict : Option String → String → Bool
  | none, _ => false
  | some f, configFlavour => if f ≠ "" ∧ f ≠ configFlavour then true else false

/-- Result of constructing InvenioCli: either the object, or the process
exits with a code after logging a message. -/
inductive InitResult where
  | ok (cli : InvenioCli)
  | exitError (code : Nat) (msg : String)
  deriving DecidableEq

/-- InvenioCli.__init__ (cli.py lines 36 to 69).  Reads .invenio; if the
file exists, requires section cli key flavour (KeyError exits 1), compares
against a supplied flavour (mismatch exits 1), and reads the optional cwd
key (KeyError only logged at debug level).  If the file is absent, a
supplied truthy flavour is used; otherwise exits 1. -/
def invenioCliInit (fs : FileSystem) (flavour : Option String) : InitResult :=
  match fs with
  | some ini =>
    (match iniGet ini "cli" "flavour" with
     | some configFlavour =>
       if flavourConflict flavour configFlavour then
         InitResult.exitError 1 "Config flavour in .invenio differs form the specified"
       else
         InitResult.ok ⟨iniGet ini "cli" "cwd", ini, configFlavour⟩
     | none => InitResult.exitError 1 "Flavour not configured")
  | none =>
    (match flavour with
     | some f =>
       if f = "" then InitResult.exitError 1 "No flavour specified."
       else InitResult.ok ⟨none, [], f⟩
     | none => InitResult.exitError 1 "No flavour specified.")

/-- A Python attribute value held by the InvenioCli object. -/
inductive AttrVal where
  | str (s : String)
  | optStr (o : Option String)
  | config (c : Ini)
  deriving DecidableEq

/-- Rendering of an attribute value inside a format string. -/
def attrFormat : AttrVal → String
  | AttrVal.str s => s
  | AttrVal.optStr none => "None"
  | AttrVal.optStr (some s) => s
  | AttrVal.config _ => "ConfigParser"

/-- An attribute value used as the cwd keyword argument of a call. -/
def attrAsCwd : AttrVal → Option String
  | AttrVal.str s => some s
  | AttrVal.optStr o => o
  | AttrVal.config _ => none

/-- Python attribute lookup on the InvenioCli object: only the attributes
assigned in __init__ resolve; every other name raises AttributeError. -/
def InvenioCli.attr (cli : InvenioCli) (a : String) : Option AttrVal :=
  if a = "cwd" then some (AttrVal.optStr cli.cwd)
  else if a = "config" then some (AttrVal.config cli.config)
  else if a = "flavour" then some (AttrVal.str cli.flavour)
  else none

/-- The init command (cli.py lines 81 to 103).  Prints, runs cookiecutter,
then opens .invenio with mode w, which truncates the file on disk before
anything is checked; the subsequent re-read of the now empty file adds
nothing to the in-memory config.  If the in-memory config already has a
cli section, the handler only logs an error (the file stays truncated and
the process still exits 0); otherwise it writes the cli section with cwd
set to the cookiecutter result and flavour.  The previous on-disk contents
never influence what ends up on disk, which is why this function does not
take the old FileSystem. -/
def initRun (cli : InvenioCli) (context : String) : FileSystem × RunResult :=
  let p0 := "Initializing " ++ cli.flavour ++ " application..."
  let calls := [ExtCall.cookiecutterCall cli.flavour]
  let config := cli.config
  if (iniSections config).contains "cli" then
    (some ([] : Ini),
     ⟨[p0],
      ["An invenio-cli configuration file (.invenio)already exists. Cannot override"],
      calls, Outcome.normal⟩)
  else
    (some (iniSetSection config "cli" [("cwd", context), ("flavour", cli.flavour)]),
     ⟨[p0], [], calls, Outcome.normal⟩)

/-- The build command (cli.py lines 118 to 164).  The codes argument gives
the exit code each external call would return; the source discards these
values (subprocess.call results are not bound), so they influence nothing. -/
def buildRun (codes : ExtCall → Int) (cli : InvenioCli)
    (base app dev lock : Bool) : RunResult :=
  let p0 := "Building " ++ cli.flavour ++ " application..."
  let lockPrints := if lock then ["Locking dependencies..."] else []
  let lockStep := if lock then [ExtCall.subprocessCall ["pipenv", "lock"] cli.cwd] else []
  if dev then
    { prints := p0 :: lockPrints ++
        ["Bootstrapping development server...", "Creating development services..."],
      logs := [],
      calls := lockStep ++
        [ExtCall.subprocessCall ["/bin/bash", "scripts/bootstrap", "--dev"] cli.cwd,
         ExtCall.composeCreateContainers true cli.cwd],
      outcome := Outcome.normal }
  else
    { prints := p0 :: lockPrints ++
        (if base then ["Building " ++ cli.flavour ++ " base docker image..."] else []) ++
        (if app then ["Building " ++ cli.flavour ++ " app docker image..."] else []) ++
        ["Creating full services..."],
      logs := [],
      calls := lockStep ++
        (if base then
          [ExtCall.dockerBuildImage cli.cwd "Dockerfile.base" (pyStr cli.cwd ++ "-base:latest")]
         else []) ++
        (if app then
          [ExtCall.dockerBuildImage cli.cwd "Dockerfile" (pyStr cli.cwd ++ ":latest")]
         else []) ++
        [ExtCall.composeCreateContainers false cli.cwd],
      outcome := Outcome.normal }

/-- The setup command (cli.py lines 171 to 189).  The very first statement
formats app_builder.name into a print; name is never assigned by __init__,
so attribute lookup fails before anything else happens. -/
def setupRun (cli : InvenioCli) (dev : Bool) : RunResult :=
  match cli.attr "name" with
  | none => ⟨[], [], [], Outcome.attributeError "name"⟩
  | some v =>
    let p0 := "Setting up environment for " ++ attrFormat v ++ " application..."
    match cli.attr "project_name" with
    | none => ⟨[p0], [], [], Outcome.attributeError "project_name"⟩
    | some pn =>
      if dev then
        ⟨[p0], [],
         [ExtCall.subprocessCall ["/bin/bash", "scripts/setup", "--dev"] (attrAsCwd pn)],
         Outcome.normal⟩
      else
        ⟨[p0, "Setting up instance..."], [],
         [ExtCall.subprocessCall
            ["docker-compose", "exec", "web-api", "/bin/bash", "-c",
             "/bin/bash /opt/invenio/src/scripts/setup"] (attrAsCwd pn)],
         Outcome.normal⟩

/-- The server command (cli.py lines 200 to 235).  Formats
app_builder.name into its first print and only then installs the SIGINT
handler and drives the containers.  The interrupts argument counts the
SIGINT signals delivered while the handler is installed; the handler body
unconditionally prints and calls stop_containers, with no re-entry guard
and no process exit, so each delivered signal contributes one stop call. -/
def serverRun (cli : InvenioCli) (dev bg start : Bool) (interrupts : Nat) : RunResult :=
  match cli.attr "name" with
  | none => ⟨[], [], [], Outcome.attributeError "name"⟩
  | some v =>
    let p0 := "Starting/Stopping server for " ++ attrFormat v ++ " application..."
    if start then
      match cli.attr "project_name" with
      | none => ⟨[p0], [], [], Outcome.attributeError "project_name"⟩
      | some pn =>
        let cwd := attrAsCwd pn
        if dev then
          ⟨p0 :: List.replicate interrupts "SIGINT, stopping server...", [],
           ExtCall.composeStartContainers true cwd bg ::
             ExtCall.subprocessCall ["/bin/bash", "scripts/server"] cwd ::
             List.replicate interrupts (ExtCall.composeStopContainers cwd),
           Outcome.normal⟩
        else
          ⟨p0 :: List.replicate interrupts "SIGINT, stopping server...", [],
           ExtCall.composeStartContainers false cwd bg ::
             List.replicate interrupts (ExtCall.composeStopContainers cwd),
           Outcome.normal⟩
    else
      match cli.attr "project_name" with
      | none => ⟨[p0], [], [], Outcome.attributeError "project_name"⟩
      | some pn =>
        ⟨[p0], [], [ExtCall.composeStopContainers (attrAsCwd pn)], Outcome.normal⟩

/-- The destroy command (cli.py lines 242 to 246). -/
def destroyRun (cli : InvenioCli) (dev : Bool) : RunResult :=
  match cli.attr "name" with
  | none => ⟨[], [], [], Outcome.attributeError "name"⟩
  | some v =>
    let p0 := "Destroying " ++ attrFormat v ++ " application..."
    match cli.attr "project_name" with
    | none => ⟨[p0], [], [], Outcome.attributeError "project_name"⟩
    | some pn =>
      ⟨[p0], [], [ExtCall.composeDestroyContainers dev (attrAsCwd pn)], Outcome.normal⟩

/-- The upgrade command (cli.py lines 249 to 255).  It would print an
unsupported message, but the first print formats app_builder.name. -/
def upgradeRun (cli : InvenioCli) : RunResult :=
  match cli.attr "name" with
  | none => ⟨[], [], [], Outcome.attributeError "name"⟩
  | some v =>
    ⟨["Upgrading server for " ++ attrFormat v ++ " application...",
      "ERROR: Not supported yet..."], [], [], Outcome.normal⟩

/-- A top-level command invocation with its flags, in the order of the
Python signatures.  For init, context is the directory the external
scaffolder returns; for server, interrupts counts delivered SIGINTs. -/
inductive Command where
  | init (context : String)
  | build (base app dev lock : Bool)
  | setup (dev : Bool)
  | server (dev bg start : Bool) (interrupts : Nat)
  | destroy (dev : Bool)
  | upgrade
  deriving DecidableEq

/-- Dispatch of a parsed command to its handler (the click group hands the
constructed InvenioCli object to the selected handler). -/
def dispatch (codes : ExtCall → Int) (fs : FileSystem) (cli : InvenioCli) :
    Command → FileSystem × RunResult
  | Command.init context => initRun cli context
  | Command.build base app dev lock => (fs, buildRun codes cli base app dev lock)
  | Command.setup dev => (fs, setupRun cli dev)
  | Command.server dev bg start ints => (fs, serverRun cli dev bg start ints)
  | Command.destroy dev => (fs, destroyRun cli dev)
  | Command.upgrade => (fs, upgradeRun cli)

/-- A full invocation: the click group callback constructs InvenioCli
first (cli.py lines 72 to 78); if the constructor exits, no handler runs
and no external call is made. -/
def cliInvoke (codes : ExtCall → Int) (fs : FileSystem) (flavour : Option String)
    (cmd : Command) : FileSystem × RunResult :=
  match invenioCliInit fs flavour with
  | InitResult.exitError code msg => (fs, ⟨[], [msg], [], Outcome.exited code⟩)
  | InitResult.ok cli => dispatch codes fs cli cmd

/-- Modelled from the spec (section 4.3 error policy), for comparison with
the code: a run aborts on failure when every external call with a nonzero
exit code is the last call executed and the failure is surfaced as
ExternalCommandFailed carrying that step and exit code. -/
def specAbortsOnFailure (codes : ExtCall → Int) (r : RunResult) : Prop :=
  ∀ i : Fin r.calls.length, codes (r.calls.get i) ≠ 0 →
    i.val = r.calls.length - 1 ∧
      r.outcome = Outcome.externalCommandFailed (r.calls.get i) (codes (r.calls.get i))

/-- The stop-container calls in a trace (teardown invocations). -/
def stopCalls (l : List ExtCall) : List ExtCall :=
  l.filter fun c =>
    match c with
    | ExtCall.composeStopContainers _ => true
    | _ => false

/-- A persisted record as init writes it: section cli with cwd and flavour. -/
def iniRDM : Ini := [("cli", [("cwd", "proj"), ("flavour", "RDM")])]

/-- The InvenioCli object loaded from iniRDM with no supplied flavour. -/
def cliRDM : InvenioCli := ⟨some "proj", iniRDM, "RDM"⟩

/-- Environment in which every external call succeeds. -/
def codesZero : ExtCall → Int := fun _ => 0

/-- Environment in which the dependency-lock call fails with exit code 1
and every other call succeeds. -/
def codesLockFail : ExtCall → Int := fun c =>
  if c = ExtCall.subprocessCall ["pipenv", "lock"] (some "proj") then 1 else 0

/-- Every external call of a build runs with the working directory the
InvenioCli object carries. -/
theorem buildRun_cwd (codes : ExtCall → Int) (cli : InvenioCli)
    (base app dev lock : Bool) :
    ∀ c ∈ (buildRun codes cli base app dev lock).calls, ExtCall.cwdOf c = cli.cwd := by
  cases dev <;> cases lock <;> cases base <;> cases app <;>
    simp [buildRun, ExtCall.cwdOf, List.forall_mem_cons]

/-- C1: running init in a directory whose .invenio already holds a cli
section does not fail with AlreadyInitialized and does not leave the record
unchanged: the handler re-runs the scaffolder, truncates the file to empty
(open with mode w precedes the existing-section check), only logs the
cannot-override error, and finishes normally (exit 0).  Evaluating the
embedded invocation at such a directory exhibits this. -/
theorem c1_second_init_truncates_record :
    cliInvoke codesZero (some iniRDM) none (Command.init "/scaffolded/dir") =
      ((some ([] : Ini) : FileSystem),
       ⟨["Initializing RDM application..."],
        ["An invenio-cli configuration file (.invenio)already exists. Cannot override"],
        [ExtCall.cookiecutterCall "RDM"],
        Outcome.normal⟩) := by
  decide

/-- C2 counterexample: in an environment where the dependency-lock call
exits 1, the dev build still executes the bootstrap and container-creation
steps after the failed lock and ends normally, so the spec predicate that
a failing call is the last executed and is surfaced as
ExternalCommandFailed is violated at this concrete input. -/
theorem c2_counterexample :
    ¬ specAbortsOnFailure codesLockFail
        (buildRun codesLockFail cliRDM false false true true) := by
  intro h
  have h0 := h ⟨0, by decide⟩ (by decide)
  exact absurd h0.1 (by decide)

/-- C2 amended: the exit codes of external calls are ignored by build:
the run is entirely independent of the exit-code environment, every step
of the fixed sequence executes regardless of earlier failures, and the
outcome is always normal; no ExternalCommandFailed is ever surfaced. -/
theorem c2_build_ignores_exit_codes (codes codes' : ExtCall → Int)
    (cli : InvenioCli) (base app dev lock : Bool) :
    buildRun codes cli base app dev lock = buildRun codes' cli base app dev lock ∧
    (buildRun codes cli base app dev lock).outcome = Outcome.normal :=
  ⟨rfl, by cases dev <;> rfl⟩

/-- C3: the setup, server and destroy handlers, for every configuration
object the constructor can produce and all flag values, read the attribute
name, which InvenioCli.__init__ never assigns, so each terminates with an
attribute-lookup failure having made zero external calls. -/
theorem c3_handlers_fail_on_missing_attributes (cli : InvenioCli)
    (dev bg start : Bool) (interrupts : Nat) :
    ((setupRun cli dev).outcome = Outcome.attributeError "name" ∧
      (setupRun cli dev).calls = []) ∧
    ((serverRun cli dev bg start interrupts).outcome = Outcome.attributeError "name" ∧
      (serverRun cli dev bg start interrupts).calls = []) ∧
    ((destroyRun cli dev).outcome = Outcome.attributeError "name" ∧
      (destroyRun cli dev).calls = []) :=
  ⟨⟨rfl, rfl⟩, ⟨rfl, rfl⟩, ⟨rfl, rfl⟩⟩

/-- C4: when the persisted flavour P and a supplied truthy flavour F
differ, every command invocation exits with code 1 from the constructor,
before any handler runs: no external call is made, nothing is printed, and
the file system is untouched. -/
theorem c4_flavour_mismatch_fatal_no_calls (codes : ExtCall → Int)
    (ini : Ini) (P F : String) (cmd : Command)
    (hP : iniGet ini "cli" "flavour" = some P)
    (hF : F ≠ "") (hne : F ≠ P) :
    cliInvoke codes (some ini) (some F) cmd =
      ((some ini : FileSystem),
       ⟨[], ["Config flavour in .invenio differs form the specified"], [],
        Outcome.exited 1⟩) := by
  have hconf : flavourConflict (some F) P = true := by
    simp [flavourConflict, hF, hne]
  have hinit : invenioCliInit (some ini) (some F) =
      InitResult.exitError 1 "Config flavour in .invenio differs form the specified" := by
    simp [invenioCliInit, hP, hconf]
  simp [cliInvoke, hinit]

/-- C4 witness: with .invenio persisting flavour RDM and the differing
supplied flavour rdm, the upgrade invocation exits 1 with no calls. -/
theorem c4_witness :
    cliInvoke codesZero (some iniRDM) (some "rdm") Command.upgrade =
      ((some iniRDM : FileSystem),
       ⟨[], ["Config flavour in .invenio differs form the specified"], [],
        Outcome.exited 1⟩) :=
  c4_flavour_mismatch_fatal_no_calls codesZero iniRDM "RDM" "rdm" Command.upgrade
    (by decide) (by decide) (by decide)

/-- C5 counterexample: build with dev and base both requested does not
fail fast with InvalidModeCombination making zero external calls; at this
concrete input it makes three external calls (lock, bootstrap, dev
container creation) and ends normally. -/
theorem c5_counterexample :
    ¬ ((buildRun codesZero cliRDM true false true true).calls = [] ∧
       (buildRun codesZero cliRDM true false true true).outcome =
         Outcome.invalidModeCombination) := by
  decide

/-- C5 amended: when dev mode is requested, the base and app flags are
silently ignored: the run equals the run with both flags cleared, it
performs the dev sequence, and the outcome is normal, never
InvalidModeCombination. -/
theorem c5_dev_ignores_base_app (codes : ExtCall → Int) (cli : InvenioCli)
    (base app lock : Bool) :
    buildRun codes cli base app true lock = buildRun codes cli false false true lock ∧
    (buildRun codes cli base app true lock).outcome = Outcome.normal :=
  ⟨rfl, rfl⟩

/-- C6: after a successful configuration load, the invocation
build --prod --base --app --no-lock performs exactly three external calls,
in order: build the base image, build the app image, create the full
non-dev container set; no dependency-lock call occurs. -/
theorem c6_build_prod_sequence (codes : ExtCall → Int) (fs : FileSystem)
    (fl : Option String) (cli : InvenioCli)
    (h : invenioCliInit fs fl = InitResult.ok cli) :
    (cliInvoke codes fs fl (Command.build true true false false)).2.calls =
      [ExtCall.dockerBuildImage cli.cwd "Dockerfile.base" (pyStr cli.cwd ++ "-base:latest"),
       ExtCall.dockerBuildImage cli.cwd "Dockerfile" (pyStr cli.cwd ++ ":latest"),
       ExtCall.composeCreateContainers false cli.cwd] := by
  simp [cliInvoke, h, dispatch, buildRun]

/-- C6 witness: with the persisted record iniRDM the three calls are the
two image builds tagged from the configured cwd and the full container
creation. -/
theorem c6_witness :
    (cliInvoke codesZero (some iniRDM) none (Command.build true true false false)).2.calls =
      [ExtCall.dockerBuildImage (some "proj") "Dockerfile.base"
         (pyStr (some "proj") ++ "-base:latest"),
       ExtCall.dockerBuildImage (some "proj") "Dockerfile"
         (pyStr (some "proj") ++ ":latest"),
       ExtCall.composeCreateContainers false (some "proj")] :=
  c6_build_prod_sequence codesZero (some iniRDM) none cliRDM (by decide)

/-- C7: a run of server with start and dev never invokes stop at all, let
alone exactly once: for every configuration object, background flag and
number of delivered interrupts, the handler fails on the attribute name in
its first print, before the interrupt handler is installed, so the
teardown count is zero. -/
theorem c7_server_start_dev_never_stops (cli : InvenioCli) (bg : Bool)
    (interrupts : Nat) :
    (serverRun cli true bg true interrupts).outcome = Outcome.attributeError "name" ∧
    (stopCalls (serverRun cli true bg true interrupts).calls).length = 0 :=
  ⟨rfl, rfl⟩

/-- C8 counterexample: a config file whose cli section has flavour but no
cwd does not make loading fail: at this concrete input the constructor
succeeds with the working directory unset. -/
theorem c8_counterexample :
    invenioCliInit (some [("cli", [("flavour", "RDM")])]) none =
      InitResult.ok ⟨none, [("cli", [("flavour", "RDM")])], "RDM"⟩ := by
  decide

/-- C8 amended: an absent config file with no supplied flavour exits 1
(the MissingFlavour condition); an existing file without the flavour key
exits 1 (the CorruptConfig condition); but an existing file that merely
lacks cwd loads successfully with the working directory unset. -/
theorem c8_amended :
    (invenioCliInit none none = InitResult.exitError 1 "No flavour specified.") ∧
    (∀ ini fl, iniGet ini "cli" "flavour" = none →
      invenioCliInit (some ini) fl = InitResult.exitError 1 "Flavour not configured") ∧
    (∀ ini fl F, iniGet ini "cli" "flavour" = some F →
      iniGet ini "cli" "cwd" = none → flavourConflict fl F = false →
      invenioCliInit (some ini) fl = InitResult.ok ⟨none, ini, F⟩) := by
  refine ⟨rfl, ?_, ?_⟩
  · intro ini fl h
    simp [invenioCliInit, h]
  · intro ini fl F h1 h2 h3
    simp [invenioCliInit, h1, h2, h3]

/-- C8 witness: the three branches of the amended statement at concrete
files: no file and no flavour exits 1; a file with an empty cli section
exits 1; a file with only the flavour key loads with cwd unset. -/
theorem c8_witness :
    invenioCliInit none none = InitResult.exitError 1 "No flavour specified." ∧
    invenioCliInit (some [("cli", [])]) none =
      InitResult.exitError 1 "Flavour not configured" ∧
    invenioCliInit (some [("cli", [("flavour", "RDM")])]) none =
      InitResult.ok ⟨none, [("cli", [("flavour", "RDM")])], "RDM"⟩ :=
  ⟨c8_amended.1,
   c8_amended.2.1 [("cli", [])] none (by decide),
   c8_amended.2.2 [("cli", [("flavour", "RDM")])] none "RDM"
     (by decide) (by decide) (by decide)⟩

/-- C9: the upgrade handler makes zero external calls, but it never
reports that the operation is unsupported: for every configuration object
it fails on the attribute name in its first print, so nothing at all is
printed. -/
theorem c9_upgrade_crashes_before_report (cli : InvenioCli) :
    (upgradeRun cli).outcome = Outcome.attributeError "name" ∧
    (upgradeRun cli).calls = [] ∧
    (upgradeRun cli).prints = [] :=
  ⟨rfl, rfl, rfl⟩

/-- C10: a config file defining cli with flavour but without cwd loads
successfully with the working directory unset, and every external call of
a subsequent build then carries no explicit working directory. -/
theorem c10_missing_cwd_builds_in_current_dir (ini : Ini) (F : String)
    (codes : ExtCall → Int) (base app dev lock : Bool)
    (h1 : iniGet ini "cli" "flavour" = some F)
    (h2 : iniGet ini "cli" "cwd" = none) :
    invenioCliInit (some ini) none = InitResult.ok ⟨none, ini, F⟩ ∧
    ∀ c ∈ (buildRun codes ⟨none, ini, F⟩ base app dev lock).calls,
      ExtCall.cwdOf c = none := by
  constructor
  · simp [invenioCliInit, h1, h2, flavourConflict]
  · intro c hc
    have h := buildRun_cwd codes ⟨none, ini, F⟩ base app dev lock c hc
    simpa using h

/-- C10 witness: at the concrete file with only the flavour key, a dev
build with lock makes its calls with no explicit working directory. -/
theorem c10_witness :
    invenioCliInit (some [("cli", [("flavour", "RDM")])]) none =
      InitResult.ok ⟨none, [("cli", [("flavour", "RDM")])], "RDM"⟩ ∧
    ∀ c ∈ (buildRun codesZero ⟨none, [("cli", [("flavour", "RDM")])], "RDM"⟩
        false false true true).calls, ExtCall.cwdOf c = none :=
  c10_missing_cwd_builds_in_current_dir [("cli", [("flavour", "RDM")])] "RDM"
    codesZero false false true true (by decide) (by decide)

end InvenioCLI
